import Mathlib

/-
Verification of the generation engine of `prisma-trpc-generator`
(src/prisma-generator.ts) against its natural-language specification.

The TypeScript `generate` function is shallowly embedded below: the per-model
loop, the allow-list filter, the procedure emission, the aggregate-router
composition, the shield (policy) synthesis and the top-level effect ordering
are translated into executable Lean definitions, and the spec's claims are
settled as theorems about those definitions.
-/

set_option autoImplicit false

namespace PrismaTrpcGen

/-! ## JavaScript string primitives used by the source -/

/-- One step of `String.prototype.replace` with a string pattern: JavaScript
replaces only the FIRST occurrence of the pattern (`'createOne'.replace('One','')`
gives `'create'`; a string with no occurrence is returned unchanged; an empty
pattern is "found" at position 0, so the replacement is prepended). -/
def replaceFirst (pat repl : List Char) : List Char → List Char
  | [] => if pat = [] then repl else []
  | c :: rest =>
    if pat.isPrefixOf (c :: rest) then repl ++ (c :: rest).drop pat.length
    else c :: replaceFirst pat repl rest

/-- JavaScript `s.replace(pat, repl)` with a string pattern (first occurrence only). -/
def jsReplace (s pat repl : String) : String :=
  String.mk (replaceFirst pat.toList repl.toList s.toList)

/-- Substring containment test (used for the hide-marker search in a
documentation comment). -/
def containsSub (pat : List Char) : List Char → Bool
  | [] => pat.isEmpty
  | c :: rest => pat.isPrefixOf (c :: rest) || containsSub pat rest

/-- JavaScript `Array.prototype.includes` on string arrays. -/
def jsIncludes (l : List String) (x : String) : Bool :=
  match l with
  | [] => false
  | y :: rest => if y = x then true else jsIncludes rest x

/-- JavaScript `a || b` on a possibly-absent string `a`: an absent value and
the empty string are falsy, so both fall back to `b`. -/
def jsOr : Option String → String → String
  | some s, d => if s = "" then d else s
  | none, d => d

/-- JavaScript `s.toLowerCase()` (ASCII case folding, which is all the source
applies it to: Prisma model names). -/
def jsToLowerCase (s : String) : String :=
  String.mk (s.toList.map Char.toLower)

/-- First-match association-list lookup, modelling JavaScript property access
`obj[key]` on the rest-object of declared operations. -/
def assocLookup : List (String × String) → String → Option String
  | [], _ => none
  | (k, v) :: rest, key => if k = key then some v else assocLookup rest key

/-- A parsed JavaScript configuration value, as it can reach the untyped
tests `config.withShield === true` and `if (config.withShield)` in the
source. `truthy` is JavaScript truthiness. -/
inductive JSVal where
  | bool : Bool → JSVal
  | str : String → JSVal
  | undef : JSVal
  deriving DecidableEq, Repr

/-- JavaScript truthiness of a configuration value. -/
def JSVal.truthy : JSVal → Bool
  | .bool b => b
  | .str s => !(s == "")
  | .undef => false

/-! ## Input data model (DMMF models and model operations) -/

/-- A Prisma model as the generator sees it: a name plus an optional
documentation comment (carrier of the hide marker). -/
structure Model where
  name : String
  documentation : Option String
  deriving DecidableEq, Repr

/-- Modelled from the spec: the hide-marker token recognized by
`resolveModelsComments` (helpers.ts, which is not under src/): a specific
token whose presence in an entity's documentation comment hides the entity. -/
def hideMarker : String := "@@Gen.model(hide: true)"

/-- Modelled from the spec: an entity is hidden iff its documentation comment
contains the recognized hide-marker token; absent comments mean visible. -/
def isHiddenModel (m : Model) : Bool :=
  match m.documentation with
  | some doc => containsSub hideMarker.toList doc.toList
  | none => false

/-- Modelled from the spec: `resolveModelsComments` (helpers.ts, not under
src/) collects into `hiddenModels` the names of the models whose comment
carries the hide marker. -/
def resolveModelsComments (models : List Model) : List String :=
  (models.filter isHiddenModel).map Model.name

/-- One entry of `prismaClientDmmf.mappings.modelOperations`: the model name
plus the rest-object mapping operation kind to the declared operation name
(`const { model, ...operations } = modelOperation`), in key order. -/
structure ModelOperation where
  model : String
  operations : List (String × String)
  deriving DecidableEq, Repr

/-! ## Pluralization (external library, modelled) -/

/-- Modelled from the spec: the external `pluralize` npm library must perform
linguistically correct pluralization, irregular plurals included. -/
def irregularPlurals : List (String × String) :=
  [("person", "people"), ("child", "children"), ("man", "men"),
   ("woman", "women"), ("foot", "feet"), ("tooth", "teeth"),
   ("mouse", "mice"), ("goose", "geese")]

/-- Suffix test on strings, used by the regular pluralization rules. -/
def endsWithOneOf (s : String) (sufs : List String) : Bool :=
  sufs.any (fun suf => suf.toList.isSuffixOf s.toList)

/-- Modelled from the spec: `pluralize(word)` — irregular table first, then
sibilant endings take `es`, consonant-`y` becomes `ies`, else append `s`. -/
def pluralize (s : String) : String :=
  match assocLookup irregularPlurals s with
  | some p => p
  | none =>
    match s.toList.reverse with
    | 'y' :: c :: _ =>
      if c ∈ ['a', 'e', 'i', 'o', 'u'] then s ++ "s"
      else String.mk s.toList.dropLast ++ "ies"
    | _ =>
      if endsWithOneOf s ["s", "x", "z", "ch", "sh"] then s ++ "es"
      else s ++ "s"

/-! ## Run input -/

/-- The input of one `generate` run: the outcome of `configSchema.safeParse`
(`parseOk` models `results.success`), the recognized configuration options,
and the pre-parsed DMMF data (models and model operations). -/
structure GenInput where
  parseOk : Bool
  withZod : Bool
  withShield : JSVal
  contextPath : String
  generateModelActions : List String
  emitterPath : String
  models : List Model
  modelOperations : List ModelOperation
  deriving DecidableEq, Repr

/-! ## Per-model router generation -/

/-- The allow-list filter of the source:
`Object.keys(operations).filter(opType => config.generateModelActions.includes(opType.replace('One','')))`.
Note that only the first occurrence of `"One"` is stripped before the
membership test; `"OrThrow"` is NOT stripped here. -/
def resolveActions (ops : List (String × String)) (allow : List String) : List String :=
  (ops.map Prod.fst).filter (fun opType => jsIncludes allow (jsReplace opType "One" ""))

/-- The arguments of one `generateProcedure(...)` call: the endpoint name, the
input-type request (`some (baseOpType, model)` stands for
`getInputTypeByOpName(baseOpType, model)`, `none` for the literal `''`), the
model, the opType tag and the base opType. -/
structure ProcedureCall where
  name : String
  inputRef : Option (String × String)
  model : String
  opType : String
  baseOpType : String
  deriving DecidableEq, Repr

/-- The body of the dispatch loop: for one allowed `opType`, the source calls
`generateProcedure(modelRouter, operations[opType] || opType,
getInputTypeByOpName(opType.replace('OrThrow',''), model), model, opType,
opType.replace('OrThrow',''), config)`. -/
def mkDispatchCall (ops : List (String × String)) (model : String) (opType : String) :
    ProcedureCall :=
  { name := jsOr (assocLookup ops opType) opType
    inputRef := some (jsReplace opType "OrThrow" "", model)
    model := model
    opType := opType
    baseOpType := jsReplace opType "OrThrow" "" }

/-- The first procedure loop of a model router: one dispatch call per entry of
`modelActions`, in order. -/
def dispatchCalls (ops : List (String × String)) (actions : List String) (model : String) :
    List ProcedureCall :=
  actions.map (mkDispatchCall ops model)

/-- The fixed event list of the subscription loop
(`const subscriptionOperations = ['create', 'update', 'delete']`). -/
def subscriptionEvents : List String := ["create", "update", "delete"]

/-- The body of the subscription loop: the source calls
`generateProcedure(modelRouter, event, '', model, subscription-tagged opType,
event, config)`. -/
def mkSubscriptionCall (model event : String) : ProcedureCall :=
  { name := event
    inputRef := none
    model := model
    opType := "subscription:" ++ event
    baseOpType := event }

/-- The second procedure loop of a model router: the three subscription
endpoints, appended after all dispatch endpoints. -/
def subscriptionCalls (model : String) : List ProcedureCall :=
  subscriptionEvents.map (mkSubscriptionCall model)

/-- The full ordered sequence of `generateProcedure` calls emitted into one
model's router file: the dispatch loop followed by the subscription loop. -/
def routerProcedures (ops : List (String × String)) (allow : List String) (model : String) :
    List ProcedureCall :=
  dispatchCalls ops (resolveActions ops allow) model ++ subscriptionCalls model

/-- What one iteration of the model loop produces for a non-skipped model. -/
structure ModelGen where
  model : String
  plural : String
  procs : List ProcedureCall
  deriving DecidableEq, Repr

/-- The data a non-skipped loop iteration generates for its model:
`plural = pluralize(model.toLowerCase())` and the ordered procedure calls. -/
def mkModelGen (allow : List String) (mo : ModelOperation) : ModelGen :=
  { model := mo.model
    plural := pluralize (jsToLowerCase mo.model)
    procs := routerProcedures mo.operations allow mo.model }

/-- One iteration of the model loop: `continue` when the model is hidden
(`hiddenModels.includes(model)`), `continue` when the filtered action list is
empty (`if (!modelActions.length) continue`), otherwise generate the router
with `plural = pluralize(model.toLowerCase())`. -/
def processModel (allow : List String) (hidden : List String) (mo : ModelOperation) :
    Option ModelGen :=
  if jsIncludes hidden mo.model then none
  else if resolveActions mo.operations allow = [] then none
  else some (mkModelGen allow mo)

/-- All models that survive the loop, in declaration order. -/
def generatedModels (input : GenInput) : List ModelGen :=
  input.modelOperations.filterMap
    (processModel input.generateModelActions (resolveModelsComments input.models))

/-- The per-model router files: `<Model>.router.ts` holding that model's
ordered procedure calls. -/
def routerFiles (input : GenInput) : List (String × List ProcedureCall) :=
  (generatedModels input).map (fun g => (g.model ++ ".router.ts", g.procs))

/-- The entries pushed onto `routerStatements`:
`` `${model.toLowerCase()}: ${plural}Router` `` — the aggregate key is the
lower-cased model name, the value references the plural-named router. -/
def aggregateEntries (input : GenInput) : List (String × String) :=
  (generatedModels input).map (fun g => (jsToLowerCase g.model, g.plural ++ "Router"))

/-- Modelled from the spec: `generateRouterImport(appRouter, plural, model)`
(helpers.ts, not under src/) emits into the aggregate file an import whose
alias is the plural-named router object, pointing at the model's router file. -/
def routerImports (input : GenInput) : List (String × String) :=
  (generatedModels input).map (fun g => (g.plural ++ "Router", "./" ++ g.model ++ ".router"))

/-! ## Shield (policy) synthesis -/

/-- The query-bucket operation list of the shield section. -/
def shieldQueryOps : List String :=
  ["aggregate", "findFirst", "findMany", "findUnique", "groupBy"]

/-- The mutation-bucket operation list of the shield section. -/
def shieldMutationOps : List String :=
  ["createOne", "deleteMany", "deleteOne", "updateMany", "updateOne", "upsertOne"]

/-- The subscription-bucket operation list of the shield section. -/
def shieldSubscriptionOps : List String := ["create", "update", "delete"]

/-- The three buckets of the generated `shield.ts` permission object, as
ordered key/decision lists. -/
structure ShieldConfig where
  query : List (String × String)
  mutation : List (String × String)
  subscription : List (String × String)
  deriving DecidableEq, Repr

/-- The shield loop of the source: it iterates over ALL `modelOperations`
(with no hidden-model check and no allow-list check) and assigns
`'allow'` to `<op><Model>` for every bucket operation. -/
def buildShieldConfig (modelOps : List ModelOperation) : ShieldConfig :=
  { query := modelOps.flatMap (fun mo => shieldQueryOps.map (fun op => (op ++ mo.model, "allow")))
    mutation := modelOps.flatMap (fun mo => shieldMutationOps.map (fun op => (op ++ mo.model, "allow")))
    subscription := modelOps.flatMap (fun mo => shieldSubscriptionOps.map (fun op => (op ++ mo.model, "allow"))) }

/-- The shield file is produced under `if (config.withShield)` — JavaScript
truthiness, not a strict comparison with `true`. -/
def shieldOutput (input : GenInput) : Option ShieldConfig :=
  if JSVal.truthy input.withShield then some (buildShieldConfig input.modelOperations) else none

/-- The shield import into `createRouter.ts` is also gated by truthiness
(`if (config.withShield) generateShieldImport(...)`). -/
def shieldImportEmitted (input : GenInput) : Bool :=
  JSVal.truthy input.withShield

/-! ## Top-level run: effect order and result -/

/-- The externally visible effects of a run, in program order. -/
inductive Effect where
  | mkdirOutput
  | clearOutput
  | zodDelegate
  | shieldDelegate
  | writeFile (name : String)
  deriving DecidableEq, Repr

/-- The ordered effect trace of `generate`: nothing at all when
`configSchema.safeParse` fails (the function throws first); otherwise
`fs.mkdir`, `removeDir`, the Zod delegate (if `withZod`), the shield delegate
(only under the STRICT test `config.withShield === true`), the bootstrap and
aggregate files, the per-model router files, and the shield file (under the
truthiness test). -/
def generateEffects (input : GenInput) : List Effect :=
  if input.parseOk = false then []
  else
    [Effect.mkdirOutput, Effect.clearOutput]
    ++ (if input.withZod then [Effect.zodDelegate] else [])
    ++ (if input.withShield = JSVal.bool true then [Effect.shieldDelegate] else [])
    ++ [Effect.writeFile "routers/helpers/createRouter.ts", Effect.writeFile "routers/index.ts"]
    ++ (routerFiles input).map (fun f => Effect.writeFile ("routers/" ++ f.1))
    ++ (if JSVal.truthy input.withShield then [Effect.writeFile "shield/shield.ts"] else [])

/-- The result of a successful run. -/
structure GenOutput where
  effects : List Effect
  routers : List (String × List ProcedureCall)
  aggregate : List (String × String)
  imports : List (String × String)
  shield : Option ShieldConfig
  deriving DecidableEq, Repr

/-- The top level of `generate`: `throw new Error('Invalid options passed')`
when the configuration fails schema validation, otherwise the full output. -/
def generate (input : GenInput) : Except String GenOutput :=
  if input.parseOk = false then Except.error "Invalid options passed"
  else Except.ok
    { effects := generateEffects input
      routers := routerFiles input
      aggregate := aggregateEntries input
      imports := routerImports input
      shield := shieldOutput input }

/-- An ambient environment (clock, randomness, host state) present when a run
starts; the source never reads any of it, which is what makes generation
deterministic. -/
structure Ambient where
  clock : Nat
  randomSeed : Nat
  deriving DecidableEq, Repr

/-- A run of the generator inside an ambient environment. The body is exactly
`generate input`: no part of the source consults the clock, randomness or any
other ambient state. -/
def generateRun (_env : Ambient) (input : GenInput) : Except String GenOutput :=
  generate input

/-! ## Helper lemmas -/

theorem processModel_eq (allow hidden : List String) (mo : ModelOperation) :
    processModel allow hidden mo
      = if !(jsIncludes hidden mo.model) && !(resolveActions mo.operations allow).isEmpty
          then some (mkModelGen allow mo) else none := by
  unfold processModel
  cases h1 : jsIncludes hidden mo.model
  · cases h2 : resolveActions mo.operations allow <;> simp [h1, h2]
  · simp [h1]

theorem filterMap_eq_filter_map {α β : Type} (f : α → Option β) (p : α → Bool) (b : α → β)
    (hf : ∀ x, f x = if p x then some (b x) else none) :
    ∀ l : List α, l.filterMap f = (l.filter p).map b := by
  intro l
  induction l with
  | nil => simp
  | cons x xs ih =>
    rw [List.filterMap_cons, List.filter_cons, hf x]
    cases hp : p x <;> simp [hp, ih]

theorem generatedModels_eq (input : GenInput) :
    generatedModels input
      = (input.modelOperations.filter (fun mo =>
          !(jsIncludes (resolveModelsComments input.models) mo.model)
          && !(resolveActions mo.operations input.generateModelActions).isEmpty)).map
          (mkModelGen input.generateModelActions) := by
  unfold generatedModels
  exact filterMap_eq_filter_map _ _ _
    (fun mo => processModel_eq input.generateModelActions (resolveModelsComments input.models) mo)
    input.modelOperations

theorem isEmpty_false_iff {α : Type} {l : List α} : l.isEmpty = false ↔ l ≠ [] := by
  cases l <;> simp

theorem mem_generatedModels {input : GenInput} {g : ModelGen} :
    g ∈ generatedModels input
      ↔ ∃ mo, mo ∈ input.modelOperations
          ∧ jsIncludes (resolveModelsComments input.models) mo.model = false
          ∧ resolveActions mo.operations input.generateModelActions ≠ []
          ∧ g = mkModelGen input.generateModelActions mo := by
  rw [generatedModels_eq]
  simp only [List.mem_map, List.mem_filter, Bool.and_eq_true, Bool.not_eq_true',
    isEmpty_false_iff]
  constructor
  · rintro ⟨mo, ⟨hmem, hvis, hne⟩, hg⟩
    exact ⟨mo, hmem, hvis, hne, hg.symm⟩
  · rintro ⟨mo, hmem, hvis, hne, hg⟩
    exact ⟨mo, ⟨hmem, hvis, hne⟩, hg.symm⟩

theorem string_append_cancel {a b c : String} (h : a ++ c = b ++ c) : a = b := by
  cases a with
  | mk la =>
    cases b with
    | mk lb =>
      cases c with
      | mk lc =>
        have h2 : la ++ lc = lb ++ lc := congrArg String.data h
        exact congrArg String.mk (List.append_cancel_right h2)

theorem mem_shieldBucket {modelOps : List ModelOperation} {bucketOps : List String}
    {mo : ModelOperation} {op : String} (hmo : mo ∈ modelOps) (hop : op ∈ bucketOps) :
    (op ++ mo.model, "allow")
      ∈ modelOps.flatMap (fun m => bucketOps.map (fun o => (o ++ m.model, "allow"))) := by
  simp only [List.mem_flatMap, List.mem_map]
  exact ⟨mo, hmo, op, hop, rfl⟩

theorem shieldBucket_shape {modelOps : List ModelOperation} {bucketOps : List String} :
    ∀ e ∈ modelOps.flatMap (fun m => bucketOps.map (fun o => (o ++ m.model, "allow"))),
      e.2 = "allow" ∧ ∃ m ∈ modelOps, ∃ o ∈ bucketOps, e.1 = o ++ m.model := by
  intro e he
  simp only [List.mem_flatMap, List.mem_map] at he
  obtain ⟨m, hm, o, ho, he⟩ := he
  subst he
  exact ⟨rfl, m, hm, o, ho, rfl⟩

/-! ## Claim C1 -/

/-- C1 (corrected): an entity contributes a router file and an aggregate entry
iff it is not hidden AND its resolved operation list is non-empty; an entity
whose resolved operation list is empty is skipped entirely
(`if (!modelActions.length) continue`), receiving neither a router file (and
hence none of the three notification endpoints) nor an aggregate entry. -/
theorem emptyResolvedOps_skips_entity (input : GenInput) :
    (routerFiles input).map Prod.fst
      = (input.modelOperations.filter (fun mo =>
          !(jsIncludes (resolveModelsComments input.models) mo.model)
          && !(resolveActions mo.operations input.generateModelActions).isEmpty)).map
          (fun mo => mo.model ++ ".router.ts")
    ∧ (aggregateEntries input).map Prod.fst
      = (input.modelOperations.filter (fun mo =>
          !(jsIncludes (resolveModelsComments input.models) mo.model)
          && !(resolveActions mo.operations input.generateModelActions).isEmpty)).map
          (fun mo => jsToLowerCase mo.model) := by
  constructor
  · rw [routerFiles, generatedModels_eq, List.map_map, List.map_map]
    rfl
  · rw [aggregateEntries, generatedModels_eq, List.map_map, List.map_map]
    rfl

/-- C1 counterexample: the visible entity `User` declares `findMany`, the
allow-list is `["create"]`, so its resolved operation list is empty — yet the
generator emits NO router file for it (in particular no notification
endpoints) and NO aggregate entry, contradicting the claim that such an
entity still receives the three subscriptions and an aggregate slot. -/
theorem emptyResolvedOps_counterexample :
    resolveModelsComments [⟨"User", none⟩] = []
    ∧ resolveActions [("findMany", "findManyUser")] ["create"] = []
    ∧ routerFiles
        { parseOk := true, withZod := false, withShield := JSVal.bool false,
          contextPath := "", generateModelActions := ["create"], emitterPath := "",
          models := [⟨"User", none⟩],
          modelOperations := [⟨"User", [("findMany", "findManyUser")]⟩] } = []
    ∧ aggregateEntries
        { parseOk := true, withZod := false, withShield := JSVal.bool false,
          contextPath := "", generateModelActions := ["create"], emitterPath := "",
          models := [⟨"User", none⟩],
          modelOperations := [⟨"User", [("findMany", "findManyUser")]⟩] } = [] := by
  decide

/-! ## Claim C2 -/

/-- C2 (corrected): a hidden entity receives no router file and no generated
model record (hence no aggregate entry), BUT whenever the shield file is
produced its three buckets DO contain the policy entries named after the
hidden entity, because the shield loop iterates over all model operations
without any hidden-model check. -/
theorem hidden_model_artifacts (input : GenInput) (mo : ModelOperation)
    (hmem : mo ∈ input.modelOperations)
    (hhid : jsIncludes (resolveModelsComments input.models) mo.model = true) :
    (∀ f ∈ routerFiles input, f.1 ≠ mo.model ++ ".router.ts")
    ∧ (∀ g ∈ generatedModels input, g.model ≠ mo.model)
    ∧ (JSVal.truthy input.withShield = true →
        ∃ sc, shieldOutput input = some sc
          ∧ (∀ op ∈ shieldQueryOps, (op ++ mo.model, "allow") ∈ sc.query)
          ∧ (∀ op ∈ shieldMutationOps, (op ++ mo.model, "allow") ∈ sc.mutation)
          ∧ (∀ op ∈ shieldSubscriptionOps, (op ++ mo.model, "allow") ∈ sc.subscription)) := by
  have hgen : ∀ g ∈ generatedModels input, g.model ≠ mo.model := by
    intro g hg heq
    obtain ⟨mo2, _, hvis2, _, hgeq⟩ := mem_generatedModels.mp hg
    have : mo2.model = mo.model := by rw [← heq, hgeq]; rfl
    rw [this] at hvis2
    rw [hvis2] at hhid
    exact Bool.false_ne_true hhid
  refine ⟨?_, hgen, ?_⟩
  · intro f hf heq
    rw [routerFiles] at hf
    obtain ⟨g, hg, hfeq⟩ := List.mem_map.mp hf
    have hname : g.model ++ ".router.ts" = mo.model ++ ".router.ts" := by
      rw [← heq, ← hfeq]
    exact hgen g hg (string_append_cancel hname)
  · intro htruthy
    refine ⟨buildShieldConfig input.modelOperations, ?_, ?_, ?_, ?_⟩
    · rw [shieldOutput, htruthy]
      simp
    · intro op hop
      exact mem_shieldBucket hmem hop
    · intro op hop
      exact mem_shieldBucket hmem hop
    · intro op hop
      exact mem_shieldBucket hmem hop

/-- C2 witness: the theorem applied to a run whose only entity `Secret` is
hidden by its documentation comment and whose shield output is enabled. -/
theorem hidden_model_artifacts_witness :
    (∀ f ∈ routerFiles
        { parseOk := true, withZod := false, withShield := JSVal.bool true,
          contextPath := "./context", generateModelActions := ["findMany"], emitterPath := "",
          models := [⟨"Secret", some "/// @@Gen.model(hide: true)"⟩],
          modelOperations := [⟨"Secret", [("findMany", "findManySecret")]⟩] },
        f.1 ≠ (⟨"Secret", [("findMany", "findManySecret")]⟩ : ModelOperation).model ++ ".router.ts")
    ∧ (∀ g ∈ generatedModels
        { parseOk := true, withZod := false, withShield := JSVal.bool true,
          contextPath := "./context", generateModelActions := ["findMany"], emitterPath := "",
          models := [⟨"Secret", some "/// @@Gen.model(hide: true)"⟩],
          modelOperations := [⟨"Secret", [("findMany", "findManySecret")]⟩] },
        g.model ≠ (⟨"Secret", [("findMany", "findManySecret")]⟩ : ModelOperation).model)
    ∧ (JSVal.truthy (JSVal.bool true) = true →
        ∃ sc, shieldOutput
            { parseOk := true, withZod := false, withShield := JSVal.bool true,
              contextPath := "./context", generateModelActions := ["findMany"], emitterPath := "",
              models := [⟨"Secret", some "/// @@Gen.model(hide: true)"⟩],
              modelOperations := [⟨"Secret", [("findMany", "findManySecret")]⟩] } = some sc
          ∧ (∀ op ∈ shieldQueryOps,
              (op ++ (⟨"Secret", [("findMany", "findManySecret")]⟩ : ModelOperation).model, "allow") ∈ sc.query)
          ∧ (∀ op ∈ shieldMutationOps,
              (op ++ (⟨"Secret", [("findMany", "findManySecret")]⟩ : ModelOperation).model, "allow") ∈ sc.mutation)
          ∧ (∀ op ∈ shieldSubscriptionOps,
              (op ++ (⟨"Secret", [("findMany", "findManySecret")]⟩ : ModelOperation).model, "allow") ∈ sc.subscription)) :=
  hidden_model_artifacts
    { parseOk := true, withZod := false, withShield := JSVal.bool true,
      contextPath := "./context", generateModelActions := ["findMany"], emitterPath := "",
      models := [⟨"Secret", some "/// @@Gen.model(hide: true)"⟩],
      modelOperations := [⟨"Secret", [("findMany", "findManySecret")]⟩] }
    ⟨"Secret", [("findMany", "findManySecret")]⟩ (by decide) (by decide)

/-- C2 counterexample: the entity `Secret` is marked hidden by its
documentation comment, yet with shield generation enabled the generated
policy file's query bucket contains the entry `aggregateSecret` — a generated
artifact referencing the hidden entity, contradicting the claim. -/
theorem hidden_model_policy_counterexample :
    resolveModelsComments [⟨"Secret", some "/// @@Gen.model(hide: true)"⟩] = ["Secret"]
    ∧ shieldOutput
        { parseOk := true, withZod := false, withShield := JSVal.bool true,
          contextPath := "./context", generateModelActions := ["findMany"], emitterPath := "",
          models := [⟨"Secret", some "/// @@Gen.model(hide: true)"⟩],
          modelOperations := [⟨"Secret", [("findMany", "findManySecret")]⟩] }
        = some (buildShieldConfig [⟨"Secret", [("findMany", "findManySecret")]⟩])
    ∧ ("aggregateSecret", "allow")
        ∈ (buildShieldConfig [⟨"Secret", [("findMany", "findManySecret")]⟩]).query
    ∧ ("createOneSecret", "allow")
        ∈ (buildShieldConfig [⟨"Secret", [("findMany", "findManySecret")]⟩]).mutation
    ∧ ("createSecret", "allow")
        ∈ (buildShieldConfig [⟨"Secret", [("findMany", "findManySecret")]⟩]).subscription := by
  decide

/-! ## Claim C3 -/

/-- C3 (confirmed): when policy generation is enabled, for every visible
entity — independently of the allow-list, which the shield loop never
consults — the query bucket holds exactly the five
aggregate/findFirst/findMany/findUnique/groupBy entries suffixed with the
entity name, the mutation bucket exactly the six
createOne/deleteMany/deleteOne/updateMany/updateOne/upsertOne entries, and
the subscription bucket exactly the three create/update/delete entries, each
mapped to allow (every bucket entry is of this shape and carries allow). -/
theorem shield_buckets_complete (input : GenInput) (mo : ModelOperation)
    (hshield : JSVal.truthy input.withShield = true)
    (hmem : mo ∈ input.modelOperations)
    (_hvis : jsIncludes (resolveModelsComments input.models) mo.model = false) :
    ∃ sc, shieldOutput input = some sc
      ∧ (∀ op ∈ shieldQueryOps, (op ++ mo.model, "allow") ∈ sc.query)
      ∧ (∀ op ∈ shieldMutationOps, (op ++ mo.model, "allow") ∈ sc.mutation)
      ∧ (∀ op ∈ shieldSubscriptionOps, (op ++ mo.model, "allow") ∈ sc.subscription)
      ∧ (∀ e ∈ sc.query, e.2 = "allow"
          ∧ ∃ mo2 ∈ input.modelOperations, ∃ op ∈ shieldQueryOps, e.1 = op ++ mo2.model)
      ∧ (∀ e ∈ sc.mutation, e.2 = "allow"
          ∧ ∃ mo2 ∈ input.modelOperations, ∃ op ∈ shieldMutationOps, e.1 = op ++ mo2.model)
      ∧ (∀ e ∈ sc.subscription, e.2 = "allow"
          ∧ ∃ mo2 ∈ input.modelOperations, ∃ op ∈ shieldSubscriptionOps, e.1 = op ++ mo2.model) := by
  refine ⟨buildShieldConfig input.modelOperations, ?_, ?_, ?_, ?_, ?_, ?_, ?_⟩
  · rw [shieldOutput, hshield]
    simp
  · intro op hop
    exact mem_shieldBucket hmem hop
  · intro op hop
    exact mem_shieldBucket hmem hop
  · intro op hop
    exact mem_shieldBucket hmem hop
  · exact shieldBucket_shape
  · exact shieldBucket_shape
  · exact shieldBucket_shape

/-- C3 witness: the theorem applied to a shield-enabled run whose only entity
is `Order` — its mutation bucket carries exactly the six `...Order` entries,
each mapped to allow. -/
theorem shield_buckets_complete_witness :
    ∃ sc, shieldOutput
        { parseOk := true, withZod := false, withShield := JSVal.bool true,
          contextPath := "./context", generateModelActions := ["create"], emitterPath := "",
          models := [⟨"Order", none⟩],
          modelOperations := [⟨"Order", [("createOne", "createOneOrder")]⟩] } = some sc
      ∧ (∀ op ∈ shieldQueryOps,
          (op ++ (⟨"Order", [("createOne", "createOneOrder")]⟩ : ModelOperation).model, "allow") ∈ sc.query)
      ∧ (∀ op ∈ shieldMutationOps,
          (op ++ (⟨"Order", [("createOne", "createOneOrder")]⟩ : ModelOperation).model, "allow") ∈ sc.mutation)
      ∧ (∀ op ∈ shieldSubscriptionOps,
          (op ++ (⟨"Order", [("createOne", "createOneOrder")]⟩ : ModelOperation).model, "allow") ∈ sc.subscription)
      ∧ (∀ e ∈ sc.query, e.2 = "allow"
          ∧ ∃ mo2 ∈ [(⟨"Order", [("createOne", "createOneOrder")]⟩ : ModelOperation)],
              ∃ op ∈ shieldQueryOps, e.1 = op ++ mo2.model)
      ∧ (∀ e ∈ sc.mutation, e.2 = "allow"
          ∧ ∃ mo2 ∈ [(⟨"Order", [("createOne", "createOneOrder")]⟩ : ModelOperation)],
              ∃ op ∈ shieldMutationOps, e.1 = op ++ mo2.model)
      ∧ (∀ e ∈ sc.subscription, e.2 = "allow"
          ∧ ∃ mo2 ∈ [(⟨"Order", [("createOne", "createOneOrder")]⟩ : ModelOperation)],
              ∃ op ∈ shieldSubscriptionOps, e.1 = op ++ mo2.model) :=
  shield_buckets_complete
    { parseOk := true, withZod := false, withShield := JSVal.bool true,
      contextPath := "./context", generateModelActions := ["create"], emitterPath := "",
      models := [⟨"Order", none⟩],
      modelOperations := [⟨"Order", [("createOne", "createOneOrder")]⟩] }
    ⟨"Order", [("createOne", "createOneOrder")]⟩ (by decide) (by decide) (by decide)

/-! ## Claim C4 -/

/-- C4 (corrected): the allow-list membership test strips ONLY the first
occurrence of the substring `"One"` from the operation-kind name before the
test (`opType.replace('One','')`); the `"OrThrow"` suffix is stripped only
afterwards, when computing the endpoint's base operation kind and input-type
request (`opType.replace('OrThrow','')`). Consequently an operation kind is
kept iff the allow-list contains its `"One"`-stripped name — an `"OrThrow"`
variant is NOT kept merely because the allow-list contains its base kind. -/
theorem allowList_strips_only_One (ops : List (String × String)) (allow : List String)
    (model : String) :
    (∀ p ∈ dispatchCalls ops (resolveActions ops allow) model,
        jsIncludes allow (jsReplace p.opType "One" "") = true
        ∧ p.baseOpType = jsReplace p.opType "OrThrow" ""
        ∧ p.inputRef = some (jsReplace p.opType "OrThrow" "", model))
    ∧ (∀ k ∈ ops.map Prod.fst, jsIncludes allow (jsReplace k "One" "") = true →
        k ∈ (dispatchCalls ops (resolveActions ops allow) model).map ProcedureCall.opType) := by
  constructor
  · intro p hp
    obtain ⟨k, hk, hpeq⟩ := List.mem_map.mp hp
    have hkf := (List.mem_filter.mp hk).2
    subst hpeq
    exact ⟨hkf, rfl, rfl⟩
  · intro k hk hallow
    refine List.mem_map.mpr ⟨mkDispatchCall ops model k, ?_, rfl⟩
    exact List.mem_map_of_mem _ (List.mem_filter.mpr ⟨hk, hallow⟩)

/-- C4 witness: the theorem applied at `ops = [("createOne","createOneUser")]`,
`allow = ["create"]`, model `User`: the single kept dispatch call passes the
`"One"`-stripped membership test and carries the `"OrThrow"`-stripped base
kind. -/
theorem allowList_strips_only_One_witness :
    jsIncludes ["create"]
        (jsReplace (mkDispatchCall [("createOne", "createOneUser")] "User" "createOne").opType "One" "") = true
    ∧ (mkDispatchCall [("createOne", "createOneUser")] "User" "createOne").baseOpType
        = jsReplace (mkDispatchCall [("createOne", "createOneUser")] "User" "createOne").opType "OrThrow" ""
    ∧ (mkDispatchCall [("createOne", "createOneUser")] "User" "createOne").inputRef
        = some (jsReplace (mkDispatchCall [("createOne", "createOneUser")] "User" "createOne").opType "OrThrow" "", "User") :=
  (allowList_strips_only_One [("createOne", "createOneUser")] ["create"] "User").1
    (mkDispatchCall [("createOne", "createOneUser")] "User" "createOne") (by decide)

/-- C4 counterexample: the entity declares `findUniqueOrThrow` and the
allow-list contains its base kind `findUnique`, yet the operation is NOT kept
— `'findUniqueOrThrow'.replace('One','')` leaves the name unchanged (no
`"One"` substring), the membership test fails, the resolved set is empty and
the router holds only the three subscription calls. This contradicts the
claim that `"OrThrow"` is stripped before the allow-list test. -/
theorem orThrow_not_kept_counterexample :
    jsIncludes ["findUnique"] "findUnique" = true
    ∧ jsReplace "findUniqueOrThrow" "One" "" = "findUniqueOrThrow"
    ∧ jsReplace "findUniqueOrThrow" "OrThrow" "" = "findUnique"
    ∧ resolveActions [("findUniqueOrThrow", "findUniqueOrThrowUser")] ["findUnique"] = []
    ∧ routerProcedures [("findUniqueOrThrow", "findUniqueOrThrowUser")] ["findUnique"] "User"
        = subscriptionCalls "User" := by
  decide

/-! ## Claim C5 -/

/-- C5 (corrected): for every generated entity, the pluralized lower-cased
entity name (linguistically correct pluralization) names the entity's router
object — it is the import alias and the value of the entity's aggregate entry
(`<plural>Router`) — while the KEY of the aggregate entry is the lower-cased
SINGULAR entity name (`model.toLowerCase()`), not the plural. -/
theorem plural_alias_singular_key (input : GenInput) (mo : ModelOperation)
    (hmem : mo ∈ input.modelOperations)
    (hvis : jsIncludes (resolveModelsComments input.models) mo.model = false)
    (hops : resolveActions mo.operations input.generateModelActions ≠ []) :
    (jsToLowerCase mo.model, pluralize (jsToLowerCase mo.model) ++ "Router") ∈ aggregateEntries input
    ∧ (pluralize (jsToLowerCase mo.model) ++ "Router", "./" ++ mo.model ++ ".router") ∈ routerImports input := by
  have hg : mkModelGen input.generateModelActions mo ∈ generatedModels input :=
    mem_generatedModels.mpr ⟨mo, hmem, hvis, hops, rfl⟩
  exact ⟨List.mem_map_of_mem _ hg, List.mem_map_of_mem _ hg⟩

/-- C5 witness: the theorem applied to a run with the single entity `Person`:
the aggregate entry is `("person", "peopleRouter")` — irregular plural in the
router reference, singular lower-cased key — and the import alias is
`peopleRouter`. -/
theorem plural_alias_singular_key_witness :
    (jsToLowerCase (⟨"Person", [("createOne", "createOnePerson")]⟩ : ModelOperation).model,
        pluralize (jsToLowerCase (⟨"Person", [("createOne", "createOnePerson")]⟩ : ModelOperation).model) ++ "Router")
      ∈ aggregateEntries
        { parseOk := true, withZod := false, withShield := JSVal.bool false,
          contextPath := "", generateModelActions := ["create"], emitterPath := "",
          models := [⟨"Person", none⟩],
          modelOperations := [⟨"Person", [("createOne", "createOnePerson")]⟩] }
    ∧ (pluralize (jsToLowerCase (⟨"Person", [("createOne", "createOnePerson")]⟩ : ModelOperation).model) ++ "Router",
        "./" ++ (⟨"Person", [("createOne", "createOnePerson")]⟩ : ModelOperation).model ++ ".router")
      ∈ routerImports
        { parseOk := true, withZod := false, withShield := JSVal.bool false,
          contextPath := "", generateModelActions := ["create"], emitterPath := "",
          models := [⟨"Person", none⟩],
          modelOperations := [⟨"Person", [("createOne", "createOnePerson")]⟩] } :=
  plural_alias_singular_key
    { parseOk := true, withZod := false, withShield := JSVal.bool false,
      contextPath := "", generateModelActions := ["create"], emitterPath := "",
      models := [⟨"Person", none⟩],
      modelOperations := [⟨"Person", [("createOne", "createOnePerson")]⟩] }
    ⟨"Person", [("createOne", "createOnePerson")]⟩ (by decide) (by decide) (by decide)

/-- C5 counterexample: for the generated entity `Person` the aggregate
dispatch key is `"person"` (the lower-cased singular name), not the
pluralized collection name `"people"` — refuting the claim that the
pluralized name is used as the aggregate key. -/
theorem aggregate_key_counterexample :
    pluralize (jsToLowerCase "Person") = "people"
    ∧ aggregateEntries
        { parseOk := true, withZod := false, withShield := JSVal.bool false,
          contextPath := "", generateModelActions := ["create"], emitterPath := "",
          models := [⟨"Person", none⟩],
          modelOperations := [⟨"Person", [("createOne", "createOnePerson")]⟩] }
        = [("person", "peopleRouter")]
    ∧ ("person" : String) ≠ "people" := by
  decide

/-! ## Claim C6 -/

/-- C6 (confirmed): every non-hidden entity with at least one resolved
operation gets a router file whose procedure sequence is exactly one dispatch
endpoint per resolved operation (in declaration order) followed by exactly
the three subscription endpoints create/update/delete — so every dispatch
endpoint precedes every subscription endpoint. -/
theorem router_file_endpoint_layout (input : GenInput) (mo : ModelOperation)
    (hmem : mo ∈ input.modelOperations)
    (hvis : jsIncludes (resolveModelsComments input.models) mo.model = false)
    (hops : resolveActions mo.operations input.generateModelActions ≠ []) :
    (mo.model ++ ".router.ts", routerProcedures mo.operations input.generateModelActions mo.model)
        ∈ routerFiles input
    ∧ (routerProcedures mo.operations input.generateModelActions mo.model).map ProcedureCall.opType
        = resolveActions mo.operations input.generateModelActions
          ++ ["subscription:create", "subscription:update", "subscription:delete"]
    ∧ ((routerProcedures mo.operations input.generateModelActions mo.model).drop
          (resolveActions mo.operations input.generateModelActions).length).map ProcedureCall.name
        = ["create", "update", "delete"] := by
  refine ⟨?_, ?_, ?_⟩
  · have hg : mkModelGen input.generateModelActions mo ∈ generatedModels input :=
      mem_generatedModels.mpr ⟨mo, hmem, hvis, hops, rfl⟩
    exact List.mem_map_of_mem _ hg
  · rw [routerProcedures, List.map_append]
    congr 1
    rw [dispatchCalls, List.map_map]
    exact List.map_id _
  · have hlen : (dispatchCalls mo.operations
        (resolveActions mo.operations input.generateModelActions) mo.model).length
        = (resolveActions mo.operations input.generateModelActions).length :=
      List.length_map _ _
    rw [routerProcedures, ← hlen, List.drop_left]
    rfl

/-- C6 witness: the theorem applied to a run with the single visible entity
`User` declaring `createOne` under allow-list `["create"]`: the router file
holds the `createOne` dispatch call followed by the three subscriptions. -/
theorem router_file_endpoint_layout_witness :
    ("User.router.ts", routerProcedures [("createOne", "createOneUser")] ["create"] "User")
        ∈ routerFiles
          { parseOk := true, withZod := false, withShield := JSVal.bool false,
            contextPath := "", generateModelActions := ["create"], emitterPath := "",
            models := [⟨"User", none⟩],
            modelOperations := [⟨"User", [("createOne", "createOneUser")]⟩] }
    ∧ (routerProcedures [("createOne", "createOneUser")] ["create"] "User").map ProcedureCall.opType
        = ["createOne", "subscription:create", "subscription:update", "subscription:delete"]
    ∧ ((routerProcedures [("createOne", "createOneUser")] ["create"] "User").drop
          (resolveActions [("createOne", "createOneUser")] ["create"]).length).map ProcedureCall.name
        = ["create", "update", "delete"] := by
  have h := router_file_endpoint_layout
    { parseOk := true, withZod := false, withShield := JSVal.bool false,
      contextPath := "", generateModelActions := ["create"], emitterPath := "",
      models := [⟨"User", none⟩],
      modelOperations := [⟨"User", [("createOne", "createOneUser")]⟩] }
    ⟨"User", [("createOne", "createOneUser")]⟩ (by decide) (by decide) (by decide)
  exact ⟨h.1, by decide, h.2.2⟩

/-! ## Claim C7 -/

/-- C7 (confirmed): when the run configuration fails schema validation
(`configSchema.safeParse` unsuccessful), `generate` aborts with the single
descriptive error `Invalid options passed` and performs no effect at all — in
particular the output directory is neither created nor cleared and no file is
written. -/
theorem invalid_config_aborts (input : GenInput) (h : input.parseOk = false) :
    generate input = Except.error "Invalid options passed"
    ∧ generateEffects input = [] := by
  constructor
  · rw [generate, if_pos h]
  · rw [generateEffects, if_pos h]

/-- C7 witness: the theorem applied to a run whose configuration fails to
parse: the result is the error and the effect trace is empty. -/
theorem invalid_config_aborts_witness :
    generate
        { parseOk := false, withZod := true, withShield := JSVal.bool true,
          contextPath := "./context", generateModelActions := ["create"], emitterPath := "",
          models := [⟨"User", none⟩],
          modelOperations := [⟨"User", [("createOne", "createOneUser")]⟩] }
      = Except.error "Invalid options passed"
    ∧ generateEffects
        { parseOk := false, withZod := true, withShield := JSVal.bool true,
          contextPath := "./context", generateModelActions := ["create"], emitterPath := "",
          models := [⟨"User", none⟩],
          modelOperations := [⟨"User", [("createOne", "createOneUser")]⟩] }
      = [] :=
  invalid_config_aborts
    { parseOk := false, withZod := true, withShield := JSVal.bool true,
      contextPath := "./context", generateModelActions := ["create"], emitterPath := "",
      models := [⟨"User", none⟩],
      modelOperations := [⟨"User", [("createOne", "createOneUser")]⟩] }
    rfl

/-! ## Claim C8 -/

/-- C8 (confirmed): each generated dispatch endpoint is named
`operations[opType] || opType` — the entity's declared (non-empty) operation
name for that kind when one is present, and the operation kind itself when
the declared mapping is absent. -/
theorem endpoint_name_fallback (ops : List (String × String)) (allow : List String)
    (model : String) (p : ProcedureCall)
    (hp : p ∈ dispatchCalls ops (resolveActions ops allow) model) :
    (∀ s, assocLookup ops p.opType = some s → s ≠ "" → p.name = s)
    ∧ (assocLookup ops p.opType = none → p.name = p.opType) := by
  obtain ⟨k, _, hpeq⟩ := List.mem_map.mp hp
  subst hpeq
  constructor
  · intro s hs hne
    have hs2 : assocLookup ops k = some s := hs
    simp [mkDispatchCall, jsOr, hs2, hne]
  · intro hnone
    have hn2 : assocLookup ops k = none := hnone
    simp [mkDispatchCall, jsOr, hn2]

/-- C8 witness: the theorem applied to the dispatch call for `findMany` on
`User` with the declared name `findManyUser`: the declared name is used when
present and the kind itself would be used when absent. -/
theorem endpoint_name_fallback_witness :
    (∀ s, assocLookup [("findMany", "findManyUser")]
        (mkDispatchCall [("findMany", "findManyUser")] "User" "findMany").opType = some s →
        s ≠ "" →
        (mkDispatchCall [("findMany", "findManyUser")] "User" "findMany").name = s)
    ∧ (assocLookup [("findMany", "findManyUser")]
        (mkDispatchCall [("findMany", "findManyUser")] "User" "findMany").opType = none →
        (mkDispatchCall [("findMany", "findManyUser")] "User" "findMany").name
          = (mkDispatchCall [("findMany", "findManyUser")] "User" "findMany").opType) :=
  endpoint_name_fallback [("findMany", "findManyUser")] ["findMany"] "User"
    (mkDispatchCall [("findMany", "findManyUser")] "User" "findMany") (by decide)

/-! ## Claim C9 -/

/-- C9 (confirmed): the shield delegate is invoked only under the strict test
`config.withShield === true`, while the shield import and the `shield.ts`
policy file are produced under plain truthiness; hence when `withShield`
parses to a truthy value other than the literal boolean `true`, the policy
file and the shield import are generated without the delegate ever running. -/
theorem shield_truthy_without_delegate (input : GenInput)
    (hp : input.parseOk = true)
    (ht : JSVal.truthy input.withShield = true)
    (hne : input.withShield ≠ JSVal.bool true) :
    Effect.shieldDelegate ∉ generateEffects input
    ∧ Effect.writeFile "shield/shield.ts" ∈ generateEffects input
    ∧ shieldImportEmitted input = true
    ∧ shieldOutput input = some (buildShieldConfig input.modelOperations) := by
  refine ⟨?_, ?_, ?_, ?_⟩
  · rw [generateEffects]
    simp only [hp, ht, hne]
    cases input.withZod <;> simp
  · rw [generateEffects]
    simp only [hp, ht]
    cases input.withZod <;> simp
  · rw [shieldImportEmitted, ht]
  · rw [shieldOutput, ht]
    simp

/-- C9 witness: the theorem applied to a run where `withShield` parsed to the
truthy string `"true"`: the shield file is written and the shield import
emitted while the delegate effect is absent from the trace. -/
theorem shield_truthy_without_delegate_witness :
    Effect.shieldDelegate ∉ generateEffects
        { parseOk := true, withZod := false, withShield := JSVal.str "true",
          contextPath := "./context", generateModelActions := ["create"], emitterPath := "",
          models := [⟨"User", none⟩],
          modelOperations := [⟨"User", [("createOne", "createOneUser")]⟩] }
    ∧ Effect.writeFile "shield/shield.ts" ∈ generateEffects
        { parseOk := true, withZod := false, withShield := JSVal.str "true",
          contextPath := "./context", generateModelActions := ["create"], emitterPath := "",
          models := [⟨"User", none⟩],
          modelOperations := [⟨"User", [("createOne", "createOneUser")]⟩] }
    ∧ shieldImportEmitted
        { parseOk := true, withZod := false, withShield := JSVal.str "true",
          contextPath := "./context", generateModelActions := ["create"], emitterPath := "",
          models := [⟨"User", none⟩],
          modelOperations := [⟨"User", [("createOne", "createOneUser")]⟩] } = true
    ∧ shieldOutput
        { parseOk := true, withZod := false, withShield := JSVal.str "true",
          contextPath := "./context", generateModelActions := ["create"], emitterPath := "",
          models := [⟨"User", none⟩],
          modelOperations := [⟨"User", [("createOne", "createOneUser")]⟩] }
      = some (buildShieldConfig [⟨"User", [("createOne", "createOneUser")]⟩]) :=
  shield_truthy_without_delegate
    { parseOk := true, withZod := false, withShield := JSVal.str "true",
      contextPath := "./context", generateModelActions := ["create"], emitterPath := "",
      models := [⟨"User", none⟩],
      modelOperations := [⟨"User", [("createOne", "createOneUser")]⟩] }
    rfl (by decide) (by decide)

/-! ## Claim C10 -/

/-- C10 (confirmed): generation is deterministic — the run's outcome (error
or full generated output) is a function of the input schema and configuration
alone, so two runs with identical input and configuration, whatever the
ambient environment of each run, produce identical output. -/
theorem generation_deterministic (env1 env2 : Ambient) (input1 input2 : GenInput)
    (h : input1 = input2) :
    generateRun env1 input1 = generateRun env2 input2 := by
  rw [h]
  rfl

/-- C10 witness: two runs with identical input in different ambient
environments produce the same output. -/
theorem generation_deterministic_witness :
    generateRun ⟨0, 0⟩
        { parseOk := true, withZod := true, withShield := JSVal.bool true,
          contextPath := "./context", generateModelActions := ["create", "findMany"], emitterPath := "",
          models := [⟨"User", none⟩],
          modelOperations := [⟨"User", [("createOne", "createOneUser"), ("findMany", "findManyUser")]⟩] }
      = generateRun ⟨42, 7⟩
        { parseOk := true, withZod := true, withShield := JSVal.bool true,
          contextPath := "./context", generateModelActions := ["create", "findMany"], emitterPath := "",
          models := [⟨"User", none⟩],
          modelOperations := [⟨"User", [("createOne", "createOneUser"), ("findMany", "findManyUser")]⟩] } :=
  generation_deterministic ⟨0, 0⟩ ⟨42, 7⟩ _ _ rfl

end PrismaTrpcGen
